import Mathlib

/-!
Verification of the bikewatching visualization script (`src/map.js`).

The script logic is embedded shallowly: JavaScript `Date` objects become a
record of calendar/time fields, trips and stations become records, and the two
core functions `filterTripsByTime` and `computeStationTraffic` are translated
directly.  `d3.rollup(trips, v => v.length, key)` followed by
`map.get(id) ?? 0` is embedded as `rollupCount`: a key is present in the
rollup map exactly when at least one trip carries it, and its value is the
number of such trips, so `get ?? 0` yields the plain count.
-/

namespace Bikewatching

/-- A JavaScript `Date`, restricted to the fields the script reads.
`minutesSinceMidnight` only calls `getHours` and `getMinutes`; the other
fields are carried to show they are ignored. -/
structure DateT where
  year : Int
  month : Nat
  day : Nat
  hours : Nat
  minutes : Nat
  seconds : Nat
deriving DecidableEq, Repr

/-- A station record as loaded from the stations JSON: the identifier used
by the aggregation is `short_name`; position fields ride along. -/
structure Station where
  short_name : String
  lon : Rat
  lat : Rat
deriving DecidableEq, Repr

/-- A trip record as parsed from the traffic CSV, with `started_at` and
`ended_at` already converted to dates. -/
structure Trip where
  start_station_id : String
  end_station_id : String
  started_at : DateT
  ended_at : DateT
deriving DecidableEq, Repr

/-- The record produced for each station by `computeStationTraffic`:
the spread `{...station}` copies the fields of the station, and the three
traffic fields are added. -/
structure StationTraffic where
  station : Station
  arrivals : Nat
  departures : Nat
  totalTraffic : Nat
deriving DecidableEq, Repr

/-- Embeds `minutesSinceMidnight(date)` from map.js:
`date.getHours() * 60 + date.getMinutes()`. -/
def minutesSinceMidnight (date : DateT) : Nat :=
  date.hours * 60 + date.minutes

/-- Embeds `filterTripsByTime(trips, timeFilter)` from map.js: `-1` returns the
array unchanged; otherwise keep trips with either endpoint within 60
minutes of the filter (`Math.abs(startedMinutes - timeFilter) <= 60`). -/
def filterTripsByTime (trips : List Trip) (timeFilter : Int) : List Trip :=
  if timeFilter = -1 then trips
  else
    trips.filter (fun trip =>
      let startedMinutes := minutesSinceMidnight trip.started_at
      let endedMinutes := minutesSinceMidnight trip.ended_at
      ((startedMinutes : Int) - timeFilter).natAbs ≤ 60 ||
        ((endedMinutes : Int) - timeFilter).natAbs ≤ 60)

/-- The map built by `d3.rollup(trips, v => v.length, key)`, as a lookup
function: `none` when no element carries the key (the key is absent from
the map and `get` returns `undefined`), otherwise the group size. -/
def rollupCount (trips : List Trip) (key : Trip → String) (k : String) :
    Option Nat :=
  let n := (trips.filter (fun d => key d = k)).length
  if n = 0 then none else some n

/-- Embeds `computeStationTraffic(stations, trips)` from map.js: two rollups keyed
by start/end station id, then a map over stations that spreads each station
record and attaches `arrivals`, `departures`, `totalTraffic`
(`map.get(id) ?? 0` is `(rollupCount ...).getD 0`). -/
def computeStationTraffic (stations : List Station) (trips : List Trip) :
    List StationTraffic :=
  let departures := rollupCount trips (fun d => d.start_station_id)
  let arrivals := rollupCount trips (fun d => d.end_station_id)
  stations.map (fun station =>
    let id := station.short_name
    let sArrivals := (arrivals id).getD 0
    let sDepartures := (departures id).getD 0
    let totalTraffic := sArrivals + sDepartures
    { station := station
      arrivals := sArrivals
      departures := sDepartures
      totalTraffic := totalTraffic })

/-- The value `(rollupCount trips key k).getD 0` is the number of trips whose key
equals `k`. -/
theorem rollupCount_getD (trips : List Trip) (key : Trip → String)
    (k : String) :
    (rollupCount trips key k).getD 0 =
      (trips.filter (fun d => key d = k)).length := by
  unfold rollupCount
  by_cases h : (trips.filter (fun d => key d = k)).length = 0 <;> simp [h]

/-- Sample date values for concrete evaluations. -/
def dateAt (hours minutes : Nat) : DateT :=
  { year := 2024, month := 3, day := 1, hours := hours, minutes := minutes,
    seconds := 0 }

/-- Two sample stations with identifiers "A" and "B". -/
def demoStations : List Station :=
  [{ short_name := "A", lon := 0, lat := 0 },
   { short_name := "B", lon := 1, lat := 1 }]

/-- Two sample trips: A to B, and A to A. -/
def demoTrips : List Trip :=
  [{ start_station_id := "A", end_station_id := "B",
     started_at := dateAt 8 55, ended_at := dateAt 9 10 },
   { start_station_id := "A", end_station_id := "A",
     started_at := dateAt 9 0, ended_at := dateAt 9 30 }]

/-- C1: `computeStationTraffic` returns one record per input station, in
order and carrying that station unchanged, with `departures` the number of
trips starting at the identifier of the station, `arrivals` the number ending
there, `totalTraffic` their sum; a station matched by no trip gets all
three fields 0. -/
theorem computeStationTraffic_spec (S : List Station) (T : List Trip) :
    computeStationTraffic S T =
      S.map (fun s =>
        { station := s
          arrivals :=
            (T.filter (fun t => t.end_station_id = s.short_name)).length
          departures :=
            (T.filter (fun t => t.start_station_id = s.short_name)).length
          totalTraffic :=
            (T.filter (fun t => t.end_station_id = s.short_name)).length +
              (T.filter
                (fun t => t.start_station_id = s.short_name)).length }) ∧
    ∀ st ∈ computeStationTraffic S T,
      (∀ t ∈ T, t.start_station_id ≠ st.station.short_name ∧
          t.end_station_id ≠ st.station.short_name) →
        st.arrivals = 0 ∧ st.departures = 0 ∧ st.totalTraffic = 0 := by
  have hmap : computeStationTraffic S T =
      S.map (fun s =>
        { station := s
          arrivals :=
            (T.filter (fun t => t.end_station_id = s.short_name)).length
          departures :=
            (T.filter (fun t => t.start_station_id = s.short_name)).length
          totalTraffic :=
            (T.filter (fun t => t.end_station_id = s.short_name)).length +
              (T.filter
                (fun t => t.start_station_id = s.short_name)).length }) := by
    unfold computeStationTraffic
    simp only [rollupCount_getD]
  refine ⟨hmap, ?_⟩
  intro st hst hno
  rw [hmap] at hst
  rcases List.mem_map.mp hst with ⟨s, hs, rfl⟩
  have hstart : (T.filter (fun t => t.start_station_id = s.short_name)) = [] := by
    rw [List.filter_eq_nil_iff]
    intro t ht
    simpa using (hno t ht).1
  have hend : (T.filter (fun t => t.end_station_id = s.short_name)) = [] := by
    rw [List.filter_eq_nil_iff]
    intro t ht
    simpa using (hno t ht).2
  simp [hstart, hend]

/-- Witness for C1 at the data of Scenario A: station A gets 2 departures,
1 arrival, 3 total; station B gets 0, 1, 1; and a station matched by no
trip gets all zeros. -/
theorem computeStationTraffic_spec_witness :
    (computeStationTraffic demoStations demoTrips).map
        (fun st => (st.departures, st.arrivals, st.totalTraffic)) =
      [(2, 1, 3), (0, 1, 1)] ∧
    ∀ st ∈ computeStationTraffic [{ short_name := "C", lon := 2, lat := 2 }]
        demoTrips,
      st.arrivals = 0 ∧ st.departures = 0 ∧ st.totalTraffic = 0 := by
  constructor
  · rw [(computeStationTraffic_spec demoStations demoTrips).1]
    decide
  · intro st hst
    have hC : computeStationTraffic
        [{ short_name := "C", lon := 2, lat := 2 }] demoTrips =
        [{ station := { short_name := "C", lon := 2, lat := 2 },
           arrivals := 0, departures := 0, totalTraffic := 0 }] := by
      decide
    rw [hC] at hst
    rcases List.mem_singleton.mp hst with rfl
    exact (computeStationTraffic_spec
      [{ short_name := "C", lon := 2, lat := 2 }] demoTrips).2 _
      (by rw [hC]; exact List.mem_singleton_self _) (by decide)

/-- C3: with the sentinel filter value `-1`, `filterTripsByTime` returns
the trip sequence itself, unchanged. -/
theorem filterTripsByTime_sentinel (T : List Trip) :
    filterTripsByTime T (-1) = T := by
  simp [filterTripsByTime]

/-- C9: for every filter value, `filterTripsByTime` returns a sublist of
its input: same relative order, no duplication, no reordering. -/
theorem filterTripsByTime_sublist (T : List Trip) (f : Int) :
    (filterTripsByTime T f).Sublist T := by
  unfold filterTripsByTime
  split
  · exact List.Sublist.refl T
  · exact List.filter_sublist T

/-- C2: for `f ≠ -1`, a trip is in `filterTripsByTime T f` iff it is in
`T` and the minute-of-day of either endpoint is within 60 minutes (inclusive)
of `f`; the distance is the plain absolute difference, with no wrap
around midnight. -/
theorem filterTripsByTime_mem (T : List Trip) (f : Int) (t : Trip)
    (hf : f ≠ -1) :
    t ∈ filterTripsByTime T f ↔
      t ∈ T ∧
        (((minutesSinceMidnight t.started_at : Int) - f).natAbs ≤ 60 ∨
          ((minutesSinceMidnight t.ended_at : Int) - f).natAbs ≤ 60) := by
  unfold filterTripsByTime
  rw [if_neg hf]
  simp [List.mem_filter]

/-- Witness for C2: with filter 600, a trip started at 09:00 (difference
exactly 60) is kept while one started at 08:55 and ended at 11:05 is
dropped; with filter 0, a trip at 23:30 (difference 1410) is dropped —
no midnight wrap. -/
theorem filterTripsByTime_mem_witness :
    (Trip.mk "A" "A" (dateAt 9 0) (dateAt 9 30) ∈
      filterTripsByTime demoTrips 600) ∧
    (Trip.mk "A" "B" (dateAt 8 55) (dateAt 11 5) ∉
      filterTripsByTime [Trip.mk "A" "B" (dateAt 8 55) (dateAt 11 5)] 600) ∧
    (Trip.mk "A" "B" (dateAt 23 30) (dateAt 23 45) ∉
      filterTripsByTime [Trip.mk "A" "B" (dateAt 23 30) (dateAt 23 45)] 0) := by
  refine ⟨?_, ?_, ?_⟩
  · exact (filterTripsByTime_mem demoTrips 600
      (Trip.mk "A" "A" (dateAt 9 0) (dateAt 9 30)) (by decide)).mpr
      (by constructor
          · decide
          · left
            decide)
  · intro hmem
    have h := (filterTripsByTime_mem
      [Trip.mk "A" "B" (dateAt 8 55) (dateAt 11 5)] 600
      (Trip.mk "A" "B" (dateAt 8 55) (dateAt 11 5)) (by decide)).mp hmem
    revert h
    decide
  · intro hmem
    have h := (filterTripsByTime_mem
      [Trip.mk "A" "B" (dateAt 23 30) (dateAt 23 45)] 0
      (Trip.mk "A" "B" (dateAt 23 30) (dateAt 23 45)) (by decide)).mp hmem
    revert h
    decide

/-- C6: a trip whose start and end station identifiers both match no
station in `S` leaves `computeStationTraffic` unchanged: the result is as
if the trip were absent, and no error occurs (the function is total). -/
theorem computeStationTraffic_unknown_id (S : List Station)
    (T1 T2 : List Trip) (t : Trip)
    (hs : t.start_station_id ∉ S.map Station.short_name)
    (he : t.end_station_id ∉ S.map Station.short_name) :
    computeStationTraffic S (T1 ++ t :: T2) =
      computeStationTraffic S (T1 ++ T2) := by
  rw [(computeStationTraffic_spec S (T1 ++ t :: T2)).1,
    (computeStationTraffic_spec S (T1 ++ T2)).1]
  apply List.map_congr_left
  intro s hsS
  have h1 : ¬t.start_station_id = s.short_name := fun hEq =>
    hs (hEq ▸ List.mem_map_of_mem Station.short_name hsS)
  have h2 : ¬t.end_station_id = s.short_name := fun hEq =>
    he (hEq ▸ List.mem_map_of_mem Station.short_name hsS)
  simp [List.filter_append, List.filter_cons, h1, h2]

/-- Witness for C6 (Scenario C): a single trip referencing stations "ZZZ"
and "YYY", unknown to the station list, yields the same result as no
trips at all. -/
theorem computeStationTraffic_unknown_id_witness :
    computeStationTraffic demoStations
        [Trip.mk "ZZZ" "YYY" (dateAt 8 0) (dateAt 8 30)] =
      computeStationTraffic demoStations [] :=
  computeStationTraffic_unknown_id demoStations [] []
    (Trip.mk "ZZZ" "YYY" (dateAt 8 0) (dateAt 8 30))
    (by decide) (by decide)

/-- C10: aggregation is additive over trip-list concatenation: the record
computed from `T1 ++ T2` is, station by station, the field-wise sum of
the records computed from `T1` and from `T2`. -/
theorem computeStationTraffic_additive (S : List Station)
    (T1 T2 : List Trip) :
    computeStationTraffic S (T1 ++ T2) =
      List.zipWith (fun a b =>
        { station := a.station
          arrivals := a.arrivals + b.arrivals
          departures := a.departures + b.departures
          totalTraffic := a.totalTraffic + b.totalTraffic })
        (computeStationTraffic S T1) (computeStationTraffic S T2) := by
  rw [(computeStationTraffic_spec S (T1 ++ T2)).1,
    (computeStationTraffic_spec S T1).1, (computeStationTraffic_spec S T2).1]
  induction S with
  | nil => rfl
  | cons s S ih =>
      simp only [List.map_cons, List.zipWith_cons_cons]
      rw [ih]
      simp only [List.cons.injEq, and_true, StationTraffic.mk.injEq,
        List.filter_append, List.length_append, true_and]
      omega

/-- Embeds `d3.scaleQuantize().domain([0, 1]).range([0, 0.5, 1])` from map.js:
three equal buckets over `[0, 1]` with thresholds `1/3` and `2/3`; a
threshold value falls in the upper bucket, and inputs outside the domain
clamp to the first or last range value. -/
def stationFlow (x : Rat) : Rat :=
  if x < 1 / 3 then 0
  else if x < 2 / 3 then 1 / 2
  else 1

/-- The value fed to `stationFlow` for a station record:
`d.totalTraffic ? d.departures / d.totalTraffic : 0.5` (a numeric value
is truthy exactly when it is nonzero). -/
def departureRatioInput (st : StationTraffic) : Rat :=
  if st.totalTraffic ≠ 0 then (st.departures : Rat) / (st.totalTraffic : Rat)
  else 1 / 2

/-- The scale `stationFlow` always returns one of the three discrete values. -/
theorem stationFlow_mem_range (x : Rat) :
    stationFlow x ∈ [(0 : Rat), 1 / 2, 1] := by
  unfold stationFlow
  split
  · simp
  · split <;> simp

/-- A zero-traffic station feeds `1/2` to the scale (the falsy branch of
the conditional). -/
theorem departureRatioInput_of_zero (st : StationTraffic)
    (h : st.totalTraffic = 0) : departureRatioInput st = 1 / 2 := by
  unfold departureRatioInput
  rw [if_neg (fun hc => hc h)]

/-- A station with traffic feeds the actual ratio to the scale. -/
theorem departureRatioInput_of_ne_zero (st : StationTraffic)
    (h : st.totalTraffic ≠ 0) :
    departureRatioInput st = (st.departures : Rat) / (st.totalTraffic : Rat) := by
  unfold departureRatioInput
  rw [if_pos h]

/-- In every record produced by `computeStationTraffic`, `departures` is
at most `totalTraffic`. -/
theorem departures_le_totalTraffic (S : List Station) (T : List Trip)
    (st : StationTraffic) (hst : st ∈ computeStationTraffic S T) :
    st.departures ≤ st.totalTraffic := by
  rw [(computeStationTraffic_spec S T).1] at hst
  rcases List.mem_map.mp hst with ⟨s, -, rfl⟩
  exact Nat.le_add_left _ _

/-- C7: for every record produced by `computeStationTraffic`, the input
to the quantizing color scale is `departures / totalTraffic` when
`totalTraffic ≠ 0` and exactly `1/2` when `totalTraffic = 0` (no division
by a zero denominator), this input lies in the domain `[0, 1]`, and the
output of the scale is one of the three discrete values `0`, `1/2`, `1`. -/
theorem departureRatioInput_spec (S : List Station) (T : List Trip)
    (st : StationTraffic) (hst : st ∈ computeStationTraffic S T) :
    (st.totalTraffic = 0 → departureRatioInput st = 1 / 2) ∧
    (st.totalTraffic ≠ 0 →
      departureRatioInput st =
        (st.departures : Rat) / (st.totalTraffic : Rat)) ∧
    0 ≤ departureRatioInput st ∧ departureRatioInput st ≤ 1 ∧
    stationFlow (departureRatioInput st) ∈ [(0 : Rat), 1 / 2, 1] := by
  have hle := departures_le_totalTraffic S T st hst
  refine ⟨departureRatioInput_of_zero st, departureRatioInput_of_ne_zero st,
    ?_, ?_, stationFlow_mem_range _⟩
  · by_cases h : st.totalTraffic = 0
    · rw [departureRatioInput_of_zero st h]
      norm_num
    · rw [departureRatioInput_of_ne_zero st h]
      positivity
  · by_cases h : st.totalTraffic = 0
    · rw [departureRatioInput_of_zero st h]
      norm_num
    · rw [departureRatioInput_of_ne_zero st h]
      rw [div_le_one (Nat.cast_pos.mpr (Nat.pos_of_ne_zero h))]
      exact_mod_cast hle

/-- Witness for C7 (Scenario D): the zero-traffic record produced for a
station with no trips feeds exactly `1/2` to the scale, and the scale
output is one of the three discrete values. -/
theorem departureRatioInput_spec_witness :
    departureRatioInput
        { station := { short_name := "C", lon := 2, lat := 2 },
          arrivals := 0, departures := 0, totalTraffic := 0 } = 1 / 2 ∧
    stationFlow (departureRatioInput
        { station := { short_name := "C", lon := 2, lat := 2 },
          arrivals := 0, departures := 0, totalTraffic := 0 }) ∈
      [(0 : Rat), 1 / 2, 1] := by
  have h := departureRatioInput_spec [{ short_name := "C", lon := 2, lat := 2 }]
    []
    { station := { short_name := "C", lon := 2, lat := 2 },
      arrivals := 0, departures := 0, totalTraffic := 0 }
    (by decide)
  exact ⟨h.1 rfl, h.2.2.2.2⟩

/-- The configuration pushed into `radiusScale` by `updateScatterPlot`:
domain endpoints and range endpoints. -/
structure RadiusScaleConfig where
  domainLo : Nat
  domainHi : Nat
  rangeLo : Nat
  rangeHi : Nat
deriving DecidableEq, Repr

/-- The `radiusScale` reconfiguration performed by
`updateScatterPlot(timeFilter)` in map.js: filter the trips, aggregate,
take `maxTraffic = d3.max(filteredStations, d => d.totalTraffic) ?? 0`
(`d3.max` of an empty collection is `undefined`), set the domain to
`[0, maxTraffic || 1]` (`0` is falsy, so a zero maximum becomes `1`) and
the range to `[0, 25]` for the sentinel filter `-1`, else `[3, 50]`. -/
def updateScatterPlotRadiusScale (stations : List Station)
    (trips : List Trip) (timeFilter : Int) : RadiusScaleConfig :=
  let filteredTrips := filterTripsByTime trips timeFilter
  let filteredStations := computeStationTraffic stations filteredTrips
  let maxTraffic :=
    ((filteredStations.map (fun d => d.totalTraffic)).max?).getD 0
  { domainLo := 0
    domainHi := if maxTraffic = 0 then 1 else maxTraffic
    rangeLo := if timeFilter = -1 then 0 else 3
    rangeHi := if timeFilter = -1 then 25 else 50 }

/-- Counterexample to C4: with one station and no trips, every aggregated
`totalTraffic` is `0` — so the claimed domain `[0, max(totalTraffic)]`
would be `[0, 0]` — yet the configured domain is `[0, 1]`, because the
code sets the upper endpoint to `maxTraffic || 1`. -/
theorem updateScatterPlotRadiusScale_domain_counterexample :
    ((computeStationTraffic [{ short_name := "A", lon := 0, lat := 0 }]
        (filterTripsByTime [] (-1))).map
        (fun d => d.totalTraffic)).max? = some 0 ∧
    (updateScatterPlotRadiusScale [{ short_name := "A", lon := 0, lat := 0 }]
        [] (-1)).domainHi = 1 := by
  constructor
  · decide
  · decide

/-- C4 (amended): on every scatter-plot update the radius scale has
domain `[0, max(1, max totalTraffic)]` — i.e. `[0, max totalTraffic]`
except that a zero or undefined maximum is replaced by `1` — and range
`[0, 25]` for the sentinel filter `-1`, `[3, 50]` otherwise. -/
theorem updateScatterPlotRadiusScale_spec (stations : List Station)
    (trips : List Trip) (timeFilter : Int) :
    updateScatterPlotRadiusScale stations trips timeFilter =
      { domainLo := 0
        domainHi := Nat.max 1
          (((computeStationTraffic stations
              (filterTripsByTime trips timeFilter)).map
              (fun d => d.totalTraffic)).max?.getD 0)
        rangeLo := if timeFilter = -1 then 0 else 3
        rangeHi := if timeFilter = -1 then 25 else 50 } := by
  unfold updateScatterPlotRadiusScale
  simp only [RadiusScaleConfig.mk.injEq, true_and, and_true]
  generalize (((computeStationTraffic stations
      (filterTripsByTime trips timeFilter)).map
      (fun d => d.totalTraffic)).max?).getD 0 = m
  by_cases h : m = 0
  · subst h
    simp
  · rw [if_neg h]
    exact (Nat.max_eq_right (by omega : 1 ≤ m)).symm

/-- map.js line 11: the Boston bike-lane GeoJSON URL. -/
def BOSTON_BIKE_LANES_URL : String :=
  "https://bostonopendata-boston.opendata.arcgis.com/datasets/boston::existing-bike-network-2022.geojson"

/-- map.js line 15: the Cambridge bike-lane GeoJSON URL. -/
def CAMBRIDGE_BIKE_LANES_URL : String :=
  "https://raw.githubusercontent.com/cambridgegis/cambridgegis_data/main/Recreation/Bike_Facilities/RECREATION_BikeFacilities.geojson"

/-- The fixed line paint style passed to `map.addLayer`. -/
structure LinePaint where
  lineColor : String
  lineWidth : Nat
  lineOpacity : Rat
deriving DecidableEq, Repr

/-- Embeds `bikeLanePaint` from map.js: color `#32D400`, width 3, opacity 0.6. -/
def bikeLanePaint : LinePaint :=
  { lineColor := "#32D400", lineWidth := 3, lineOpacity := 6 / 10 }

/-- One `addSource` + `addLayer` pair performed in the load handler. -/
structure LayerAdd where
  layerId : String
  sourceId : String
  sourceData : String
  paint : LinePaint
deriving DecidableEq, Repr

/-- The bike-lane source/layer additions performed by the map load
handler: the Boston pair unconditionally, then the Cambridge pair guarded
by comparing `CAMBRIDGE_BIKE_LANES_URL` against a string literal, where the literal in
the guard is the very string `CAMBRIDGE_BIKE_LANES_URL` is bound to. -/
def onLoadBikeLaneLayers : List LayerAdd :=
  [{ layerId := "boston-bike-lanes", sourceId := "boston_route",
     sourceData := BOSTON_BIKE_LANES_URL, paint := bikeLanePaint }] ++
  (if CAMBRIDGE_BIKE_LANES_URL ≠
      "https://raw.githubusercontent.com/cambridgegis/cambridgegis_data/main/Recreation/Bike_Facilities/RECREATION_BikeFacilities.geojson"
   then
     [{ layerId := "cambridge-bike-lanes", sourceId := "cambridge_route",
        sourceData := CAMBRIDGE_BIKE_LANES_URL, paint := bikeLanePaint }]
   else [])

/-- C5: the load handler adds only the Boston bike-lane layer.  The
Cambridge block is dead code: its guard compares
`CAMBRIDGE_BIKE_LANES_URL` against the very literal it is bound to, so it
is always false and the Cambridge source/layer pair is never added —
contrary to the spec (and the own "Boston + Cambridge" comment of the script),
which expects both sets rendered with the fixed paint style. -/
theorem onLoadBikeLaneLayers_boston_only :
    onLoadBikeLaneLayers =
      [{ layerId := "boston-bike-lanes", sourceId := "boston_route",
         sourceData := BOSTON_BIKE_LANES_URL, paint := bikeLanePaint }] := by
  have hguard : ¬(CAMBRIDGE_BIKE_LANES_URL ≠
      "https://raw.githubusercontent.com/cambridgegis/cambridgegis_data/main/Recreation/Bike_Facilities/RECREATION_BikeFacilities.geojson") :=
    fun h => h rfl
  unfold onLoadBikeLaneLayers
  rw [if_neg hguard]
  rfl

/-!
Heap-level embedding of `computeStationTraffic`, used to settle the frame
property: JavaScript objects live on a heap (addresses are indices into a
list of objects, an object is an ordered field list), the function
receives references to its station and trip records, reads their fields,
and the only allocation it performs is the object literal
`{...station, arrivals, departures, totalTraffic}` — it contains no
assignment to any existing object.
-/

/-- A JavaScript field value, restricted to the types the records hold. -/
inductive JVal where
  | str : String → JVal
  | num : Nat → JVal
  | rat : Rat → JVal
  | date : DateT → JVal
deriving DecidableEq, Repr

/-- A JavaScript object: an ordered association list of fields. -/
abbrev JObj := List (String × JVal)

/-- A heap of objects; a reference is an index into the heap. -/
abbrev Heap := List JObj

/-- Property read `o.k`: the value of the first field named `k`, or
`undefined` (`none`). -/
def getField (o : JObj) (k : String) : Option JVal :=
  (o.find? (fun kv => kv.1 = k)).map (fun kv => kv.2)

/-- Property write into a fresh object literal: override an existing
field in place, otherwise append it. -/
def setField (o : JObj) (k : String) (v : JVal) : JObj :=
  if o.any (fun kv => kv.1 = k) then
    o.map (fun kv => if kv.1 = k then (k, v) else kv)
  else o ++ [(k, v)]

/-- Dereference `h[r]`; records handed to the script are valid, so the
default only keeps the function total. -/
def heapRead (h : Heap) (r : Nat) : JObj :=
  (h[r]?).getD []

/-- The object literal `{...station, arrivals: a, departures: d,
totalTraffic: tot}`: a fresh object spreading the fields of the station. -/
def spreadWithTraffic (station : JObj) (a d tot : Nat) : JObj :=
  setField (setField (setField station "arrivals" (JVal.num a))
    "departures" (JVal.num d)) "totalTraffic" (JVal.num tot)

/-- The `stations.map(...)` pass of `computeStationTraffic` at heap
level: for each station reference, read `short_name`, look up the two
rollup counts and allocate the spread object literal, returning the new
heap and the references to the allocated records. -/
def allocTrafficRecords (h : Heap) (arr dep : Option JVal → Nat) :
    List Nat → Heap × List Nat
  | [] => (h, [])
  | r :: rest =>
      let station := heapRead h r
      let id := getField station "short_name"
      let sArrivals := arr id
      let sDepartures := dep id
      let o := spreadWithTraffic station sArrivals sDepartures
        (sArrivals + sDepartures)
      let res := allocTrafficRecords (h ++ [o]) arr dep rest
      (res.1, h.length :: res.2)

/-- Embeds `computeStationTraffic(stations, trips)` at heap level: the two
rollups read the trip records (pure reads of `start_station_id` /
`end_station_id`), then the station pass allocates one fresh record per
station. -/
def computeStationTrafficH (h : Heap) (stations trips : List Nat) :
    Heap × List Nat :=
  let departures := fun key =>
    (trips.filter
      (fun r => getField (heapRead h r) "start_station_id" = key)).length
  let arrivals := fun key =>
    (trips.filter
      (fun r => getField (heapRead h r) "end_station_id" = key)).length
  allocTrafficRecords h arrivals departures stations

/-- The allocation pass only appends to the heap, and every reference it
returns points past the initial heap. -/
theorem allocTrafficRecords_grows (arr dep : Option JVal → Nat)
    (refs : List Nat) (h : Heap) :
    (∃ tail, (allocTrafficRecords h arr dep refs).1 = h ++ tail) ∧
    (∀ r ∈ (allocTrafficRecords h arr dep refs).2, h.length ≤ r) ∧
    (allocTrafficRecords h arr dep refs).2.length = refs.length := by
  induction refs generalizing h with
  | nil =>
      refine ⟨⟨[], ?_⟩, ?_, ?_⟩ <;> simp [allocTrafficRecords]
  | cons r rest ih =>
      obtain ⟨⟨tail, htail⟩, hge, hlen⟩ := ih (h ++ [spreadWithTraffic
        (heapRead h r) (arr (getField (heapRead h r) "short_name"))
        (dep (getField (heapRead h r) "short_name"))
        (arr (getField (heapRead h r) "short_name") +
          dep (getField (heapRead h r) "short_name"))])
      refine ⟨⟨[spreadWithTraffic (heapRead h r)
        (arr (getField (heapRead h r) "short_name"))
        (dep (getField (heapRead h r) "short_name"))
        (arr (getField (heapRead h r) "short_name") +
          dep (getField (heapRead h r) "short_name"))] ++ tail, ?_⟩, ?_, ?_⟩
      · show (allocTrafficRecords _ arr dep rest).1 = _
        rw [htail, List.append_assoc]
      · intro x hx
        rcases List.mem_cons.mp hx with rfl | hx
        · exact le_refl _
        · have := hge x hx
          simp only [List.length_append, List.length_cons,
            List.length_nil] at this
          omega
      · show (h.length :: (allocTrafficRecords _ arr dep rest).2).length = _
        simp [hlen]

/-- C8: `computeStationTraffic` does not mutate its inputs.  At heap
level the call only appends freshly allocated records: the final heap
restricted to the pre-existing addresses equals the initial heap (every
input station and trip record holds the same field values afterwards),
every returned reference is fresh (past the initial heap), and one new
record is returned per station reference. -/
theorem computeStationTrafficH_frame (h : Heap) (stations trips : List Nat) :
    ((computeStationTrafficH h stations trips).1).take h.length = h ∧
    (∀ r ∈ (computeStationTrafficH h stations trips).2, h.length ≤ r) ∧
    (computeStationTrafficH h stations trips).2.length = stations.length := by
  obtain ⟨⟨tail, htail⟩, hge, hlen⟩ := allocTrafficRecords_grows
    (fun key => (trips.filter
      (fun r => getField (heapRead h r) "end_station_id" = key)).length)
    (fun key => (trips.filter
      (fun r => getField (heapRead h r) "start_station_id" = key)).length)
    stations h
  refine ⟨?_, hge, hlen⟩
  show (allocTrafficRecords h _ _ stations).1.take h.length = h
  rw [htail, List.take_left]

/-- A two-object heap for concrete evaluation: a station record at
address 0 and a trip record at address 1. -/
def demoHeap : Heap :=
  [[("short_name", JVal.str "A"), ("lon", JVal.rat 0), ("lat", JVal.rat 0)],
   [("start_station_id", JVal.str "A"), ("end_station_id", JVal.str "A"),
    ("started_at", JVal.date (dateAt 9 0)),
    ("ended_at", JVal.date (dateAt 9 30))]]

/-- Witness for C8: on the two-object demo heap the call leaves both
input records in place, allocates the single result record at the fresh
address 2, and returns one reference per station. -/
theorem computeStationTrafficH_frame_witness :
    ((computeStationTrafficH demoHeap [0] [1]).1).take demoHeap.length =
      demoHeap ∧
    (computeStationTrafficH demoHeap [0] [1]).2 = [2] ∧
    demoHeap.length ≤ 2 := by
  refine ⟨(computeStationTrafficH_frame demoHeap [0] [1]).1, by decide, ?_⟩
  exact (computeStationTrafficH_frame demoHeap [0] [1]).2.1 2 (by decide)

end Bikewatching
